import Mathlib

/-!
Verification of `libcloud/utils/retry.py`: a retry-with-backoff wrapper
around a fallible operation.

The Python module is embedded shallowly:

* Python exception classes become the enumeration `PyType`; the class
  hierarchy (single inheritance for all classes involved) becomes the
  `ancestors` list of each type, so that `isinstance` checks become
  membership of a class in the list (`instOf`) while `type(e) in s`
  checks compare the precise type (`Retry.should_retry`).
* A raised exception is a `PyExc`: its precise runtime class, its
  message text (`str(exc)` / `args`), and the `retry_after` attribute
  carried by rate-limit errors.
* Seconds (delays, timeouts, wall-clock instants) are rationals.
* One invocation of the wrapped callable is a `PyOutcome`; the whole
  behaviour of the callable across re-invocations is a function from the
  invocation index to its outcome, plus a function giving the wall-clock
  duration of each invocation.
* The `while True` loop becomes a fuel-indexed recursion `retry_loop_aux`
  returning `none` when the fuel runs out, and otherwise the final
  result together with the full trace of sleeps performed, the number of
  invocations, and the wall-clock time at exit.
-/

/-- Python exception classes appearing in (or relevant to) `retry.py`.
`osError` is `OSError`, which is the same class as `socket.error` in
Python 3; `rateLimitSubclass` stands for an arbitrary proper subclass of
`RateLimitReachedError`; `otherError` stands for an ordinary exception
class unrelated to the ones the module mentions (e.g. `ValueError`). -/
inductive PyType where
  | baseException
  | exception
  | keyboardInterrupt
  | osError
  | gaierror
  | httpException
  | notConnected
  | improperConnectionState
  | sslError
  | transientSSLError
  | rateLimitReachedError
  | rateLimitSubclass
  | otherError
  deriving DecidableEq, Fintype

/-- The method resolution order of each class: the class itself first,
then its base classes up to `BaseException`.  Mirrors the Python class
hierarchy: `Exception < BaseException`, `KeyboardInterrupt <
BaseException`, `OSError < Exception`, `socket.gaierror < OSError`,
`ssl.SSLError < OSError`, `TransientSSLError < ssl.SSLError`,
`http.client.NotConnected / ImproperConnectionState < HTTPException <
Exception`, `RateLimitReachedError < Exception`. -/
def PyType.ancestors : PyType → List PyType
  | .baseException => [.baseException]
  | .exception => [.exception, .baseException]
  | .keyboardInterrupt => [.keyboardInterrupt, .baseException]
  | .osError => [.osError, .exception, .baseException]
  | .gaierror => [.gaierror, .osError, .exception, .baseException]
  | .httpException => [.httpException, .exception, .baseException]
  | .notConnected => [.notConnected, .httpException, .exception, .baseException]
  | .improperConnectionState =>
      [.improperConnectionState, .httpException, .exception, .baseException]
  | .sslError => [.sslError, .osError, .exception, .baseException]
  | .transientSSLError =>
      [.transientSSLError, .sslError, .osError, .exception, .baseException]
  | .rateLimitReachedError => [.rateLimitReachedError, .exception, .baseException]
  | .rateLimitSubclass =>
      [.rateLimitSubclass, .rateLimitReachedError, .exception, .baseException]
  | .otherError => [.otherError, .exception, .baseException]

/-- `instOf t c` is Python's `isinstance(e, C)` for an exception `e` of
precise class `t`: it holds when `C` is `t` itself or a base class. -/
def instOf (t c : PyType) : Bool :=
  t.ancestors.contains c

/-- A raised Python exception value: its precise runtime class, its
message (`str(exc)`, preserved through `args`), and the `retry_after`
attribute (meaningful on rate-limit errors; in seconds). -/
structure PyExc where
  ty : PyType
  msg : String
  retry_after : ℚ
  deriving DecidableEq

/-- Outcome of a single invocation of the wrapped callable. -/
inductive PyOutcome (α : Type) where
  | ok : α → PyOutcome α
  | raise : PyExc → PyOutcome α
  deriving DecidableEq

/-- Whether the character list `needle` occurs contiguously inside
`hay`; the model of Python's `needle in hay` on strings. -/
def listIsInfix (needle : List Char) : List Char → Bool
  | [] => needle.isEmpty
  | c :: cs => needle.isPrefixOf (c :: cs) || listIsInfix needle cs

/-- `needle in hay` on Python strings. -/
def strContainsSub (hay needle : String) : Bool :=
  listIsInfix needle.data hay.data

/-- `TRANSIENT_SSL_ERROR`: the marker message indicating a transient
SSL error upon which the request can be retried. -/
def TRANSIENT_SSL_ERROR : String := "The read operation timed out"

/-- `DEFAULT_TIMEOUT = 30`, the default retry timeout in seconds. -/
def DEFAULT_TIMEOUT : ℚ := 30

/-- `DEFAULT_DELAY = 1`, the default sleep delay used in each iteration. -/
def DEFAULT_DELAY : ℚ := 1

/-- `DEFAULT_BACKOFF = 1`, the retry backoff multiplier. -/
def DEFAULT_BACKOFF : ℚ := 1

/-- `RETRY_EXCEPTIONS = (RateLimitReachedError, socket.error,
socket.gaierror, httplib.NotConnected,
httplib.ImproperConnectionState, TransientSSLError)`. -/
def RETRY_EXCEPTIONS : List PyType :=
  [.rateLimitReachedError, .osError, .gaierror,
   .notConnected, .improperConnectionState, .transientSSLError]

/-- The state stored by `Retry.__init__`. -/
structure Retry where
  retry_exceptions : List PyType
  retry_delay : ℚ
  timeout : ℚ
  backoff : ℚ
  deriving DecidableEq

/-- `Retry.__init__`: each argument defaults when passed as `None`
(`none` here), and `timeout = max(timeout, 0)`. -/
def Retry.init (retry_exceptions : Option (List PyType)) (retry_delay : Option ℚ)
    (timeout : Option ℚ) (backoff : Option ℚ) : Retry :=
  { retry_exceptions := retry_exceptions.getD RETRY_EXCEPTIONS
    retry_delay := retry_delay.getD DEFAULT_DELAY
    timeout := max (timeout.getD DEFAULT_TIMEOUT) 0
    backoff := backoff.getD DEFAULT_BACKOFF }

/-- `Retry.should_retry`: `type(exception) in self.retry_exceptions` —
membership of the precise runtime class, not an `isinstance` test. -/
def Retry.should_retry (self : Retry) (exception : PyExc) : Bool :=
  self.retry_exceptions.contains exception.ty

/-- `transform_ssl_error(func, *args)`: runs the callable; an
`ssl.SSLError` (by `isinstance`) whose message contains
`TRANSIENT_SSL_ERROR` is replaced by a `TransientSSLError` built from
the same `args`; any other outcome passes through unchanged. -/
def transform_ssl_error {α : Type} (r : PyOutcome α) : PyOutcome α :=
  match r with
  | .ok v => .ok v
  | .raise exc =>
    if instOf exc.ty .sslError then
      if strContainsSub exc.msg TRANSIENT_SSL_ERROR then
        .raise { exc with ty := .transientSSLError }
      else
        .raise exc
    else
      .raise exc

/-- The final result of a run of the wrapped callable: the success
value, or the exception that propagated to the caller (whether
re-raised by the loop or never caught by `except Exception`). -/
inductive FinalResult (α : Type) where
  | success : α → FinalResult α
  | error : PyExc → FinalResult α
  deriving DecidableEq

/-- Observable trace of one run of the wrapped callable: the final
result, every sleep performed in order (seconds), the number of
invocations of the callable, and the wall-clock time at exit. -/
structure LoopOut (α : Type) where
  result : FinalResult α
  sleeps : List ℚ
  calls : ℕ
  endTime : ℚ
  deriving DecidableEq

/-- The body of `retry_loop`'s `while True`, unrolled on fuel.
`op j` is the outcome of the `j`-th invocation of the callable and
`opTime j` its wall-clock duration; `now` is the current time,
`current_delay` and `deadline` the loop state (`current_delay`, `end`).
Each branch mirrors the source: success returns; an exception outside
the `Exception` hierarchy is not caught by `except Exception` and
propagates; `isinstance(exc, RateLimitReachedError)` sleeps
`retry_after`, resets the delay and recomputes `end` from the
post-sleep clock; otherwise `datetime.now() >= end` re-raises;
otherwise `should_retry` sleeps `current_delay` and multiplies it by
`backoff`; otherwise re-raises. -/
def retry_loop_aux {α : Type} (self : Retry) (op : ℕ → PyOutcome α) (opTime : ℕ → ℚ) :
    ℕ → ℕ → ℚ → ℚ → ℚ → Option (LoopOut α)
  | 0, _, _, _, _ => none
  | fuel + 1, k, now, current_delay, deadline =>
    let now1 := now + opTime k
    match transform_ssl_error (op k) with
    | .ok v => some ⟨.success v, [], k + 1, now1⟩
    | .raise exc =>
      if instOf exc.ty .exception then
        if instOf exc.ty .rateLimitReachedError then
          let now2 := now1 + exc.retry_after
          (retry_loop_aux self op opTime fuel (k + 1) now2 self.retry_delay
              (now2 + (exc.retry_after + self.timeout))).map
            (fun out => { out with sleeps := exc.retry_after :: out.sleeps })
        else if deadline ≤ now1 then
          some ⟨.error exc, [], k + 1, now1⟩
        else if self.should_retry exc then
          (retry_loop_aux self op opTime fuel (k + 1) (now1 + current_delay)
              (current_delay * self.backoff) deadline).map
            (fun out => { out with sleeps := current_delay :: out.sleeps })
        else
          some ⟨.error exc, [], k + 1, now1⟩
      else
        some ⟨.error exc, [], k + 1, now1⟩

/-- `retry_loop(*args, **kwargs)`: initializes `current_delay =
self.retry_delay` and `end = datetime.now() + timedelta(seconds=
self.timeout)`, then runs the loop.  `t0` is the wall-clock time at
entry; `fuel` bounds the number of iterations modelled. -/
def retry_loop {α : Type} (self : Retry) (op : ℕ → PyOutcome α) (opTime : ℕ → ℚ)
    (t0 : ℚ) (fuel : ℕ) : Option (LoopOut α) :=
  retry_loop_aux self op opTime fuel 0 t0 self.retry_delay (t0 + self.timeout)

/-- The `Retry` configuration produced by `Retry()` with no arguments. -/
def defaultRetry : Retry := Retry.init none none none none

/-- The geometric backoff schedule: the sleeps before the 1st..Nth
retry when the delay starts at `d` and is multiplied by `b` each time. -/
def geomSleeps (d b : ℚ) (N : ℕ) : List ℚ :=
  (List.range N).map (fun j => d * b ^ j)

/-- `RateLimitReachedError` is an ordinary exception: any class caught
by `isinstance(exc, RateLimitReachedError)` is also caught by
`except Exception`. -/
theorem instOf_rateLimit_isException :
    ∀ t : PyType, instOf t .rateLimitReachedError = true → instOf t .exception = true := by
  decide

/-- A class outside the `Exception` hierarchy is not an `ssl.SSLError`
either, so `transform_ssl_error` passes it through. -/
theorem instOf_notException_notSSL :
    ∀ t : PyType, instOf t .exception = false → instOf t .sslError = false := by
  decide

/-- Peeling one step off the geometric backoff schedule. -/
theorem geomSleeps_succ (d b : ℚ) (N : ℕ) :
    geomSleeps d b (N + 1) = d :: geomSleeps (d * b) b N := by
  simp only [geomSleeps, List.range_succ_eq_map, List.map_cons, List.map_map, pow_zero,
    mul_one]
  refine congrArg _ (List.map_congr_left ?_)
  intro j _
  simp [Function.comp, pow_succ]
  ring

/-- C7: for every configuration and argument list, if the target
operation returns a value without raising on its first invocation, the
wrapped operation returns exactly that value after exactly one
invocation and with zero sleeps. -/
theorem C7_first_attempt_success {α : Type} (self : Retry) (op : ℕ → PyOutcome α)
    (opTime : ℕ → ℚ) (t0 : ℚ) (v : α) (fuel : ℕ)
    (hop : op 0 = .ok v) :
    retry_loop self op opTime t0 (fuel + 1) =
      some ⟨.success v, [], 1, t0 + opTime 0⟩ := by
  simp [retry_loop, retry_loop_aux, transform_ssl_error, hop]

/-- C7 witness: a constant-success operation returns its value on the
first attempt with no sleep. -/
theorem C7_first_attempt_success_witness :
    (fun _ : ℕ => (PyOutcome.ok 42 : PyOutcome ℕ)) 0 = .ok 42 ∧
    retry_loop defaultRetry (fun _ : ℕ => (PyOutcome.ok 42 : PyOutcome ℕ))
        (fun _ => 0) 0 (9 + 1) =
      some ⟨.success 42, [], 1, 0 + (fun _ : ℕ => (0 : ℚ)) 0⟩ :=
  ⟨rfl, C7_first_attempt_success defaultRetry _ _ 0 42 9 rfl⟩

/-- C10: an exception outside the ordinary `Exception` hierarchy (a
`BaseException` that is not an `Exception`, e.g. `KeyboardInterrupt`)
raised on the first invocation propagates immediately, with no sleep
and no retry, regardless of configuration. -/
theorem C10_base_exception_uncaught {α : Type} (self : Retry) (op : ℕ → PyOutcome α)
    (opTime : ℕ → ℚ) (t0 : ℚ) (e : PyExc) (fuel : ℕ)
    (hop : op 0 = .raise e)
    (hexc : instOf e.ty .exception = false) :
    retry_loop self op opTime t0 (fuel + 1) =
      some ⟨.error e, [], 1, t0 + opTime 0⟩ := by
  have hssl : instOf e.ty .sslError = false := instOf_notException_notSSL e.ty hexc
  simp [retry_loop, retry_loop_aux, transform_ssl_error, hop, hssl, hexc]

/-- C10 witness: a `KeyboardInterrupt` raised on the first invocation
propagates at once under the default configuration. -/
theorem C10_base_exception_uncaught_witness :
    (fun _ : ℕ => (PyOutcome.raise ⟨.keyboardInterrupt, "", 0⟩ : PyOutcome ℕ)) 0 =
      .raise ⟨.keyboardInterrupt, "", 0⟩ ∧
    instOf PyType.keyboardInterrupt .exception = false ∧
    retry_loop defaultRetry (fun _ : ℕ => (PyOutcome.raise ⟨.keyboardInterrupt, "", 0⟩ :
        PyOutcome ℕ)) (fun _ => 0) 0 (9 + 1) =
      some ⟨.error ⟨.keyboardInterrupt, "", 0⟩, [], 1, 0 + (fun _ : ℕ => (0 : ℚ)) 0⟩ :=
  ⟨rfl, by decide,
    C10_base_exception_uncaught defaultRetry _ _ 0 ⟨.keyboardInterrupt, "", 0⟩ 9 rfl
      (by decide)⟩

/-- C2: whenever the invocation raises an error that `isinstance`
classifies as rate-limited, the loop — unconditionally, with no
deadline comparison — sleeps exactly `retry_after` seconds, resets
`current_delay` to `self.retry_delay`, sets the deadline to the
post-sleep clock plus `retry_after + timeout`, and continues the loop
without multiplying the backoff delay. -/
theorem C2_rate_limit_branch {α : Type} (self : Retry) (op : ℕ → PyOutcome α)
    (opTime : ℕ → ℚ) (fuel k : ℕ) (now current_delay deadline : ℚ) (exc : PyExc)
    (hex : transform_ssl_error (op k) = .raise exc)
    (hrl : instOf exc.ty .rateLimitReachedError = true) :
    retry_loop_aux self op opTime (fuel + 1) k now current_delay deadline =
      (retry_loop_aux self op opTime fuel (k + 1)
          (now + opTime k + exc.retry_after) self.retry_delay
          (now + opTime k + exc.retry_after + (exc.retry_after + self.timeout))).map
        (fun out => { out with sleeps := exc.retry_after :: out.sleeps }) := by
  have hexc : instOf exc.ty .exception = true := instOf_rateLimit_isException _ hrl
  simp [retry_loop_aux, hex, hexc, hrl]

/-- C2 witness: a rate-limit error with `retry_after = 5` under the
default configuration sleeps 5 seconds, resets the delay and extends
the deadline. -/
theorem C2_rate_limit_branch_witness :
    transform_ssl_error ((fun j : ℕ => if j = 0 then
        (PyOutcome.raise ⟨.rateLimitReachedError, "rate limited", 5⟩ : PyOutcome ℕ)
      else .ok 7) 0) = .raise ⟨.rateLimitReachedError, "rate limited", 5⟩ ∧
    instOf PyType.rateLimitReachedError .rateLimitReachedError = true ∧
    retry_loop_aux defaultRetry (fun j : ℕ => if j = 0 then
        (PyOutcome.raise ⟨.rateLimitReachedError, "rate limited", 5⟩ : PyOutcome ℕ)
      else .ok 7) (fun _ => 0) (3 + 1) 0 0 1 30 =
      (retry_loop_aux defaultRetry (fun j : ℕ => if j = 0 then
          (PyOutcome.raise ⟨.rateLimitReachedError, "rate limited", 5⟩ : PyOutcome ℕ)
        else .ok 7) (fun _ => 0) 3 (0 + 1)
          (0 + (fun _ : ℕ => (0 : ℚ)) 0 + (5 : ℚ)) defaultRetry.retry_delay
          (0 + (fun _ : ℕ => (0 : ℚ)) 0 + (5 : ℚ) + ((5 : ℚ) + defaultRetry.timeout))).map
        (fun out => { out with sleeps := (5 : ℚ) :: out.sleeps }) :=
  ⟨by norm_num +decide [transform_ssl_error, instOf, PyType.ancestors, strContainsSub,
      listIsInfix, TRANSIENT_SSL_ERROR],
   by decide,
   C2_rate_limit_branch defaultRetry _ _ 3 0 0 1 30 ⟨.rateLimitReachedError, "rate limited", 5⟩
     (by norm_num +decide [transform_ssl_error, instOf, PyType.ancestors, strContainsSub,
        listIsInfix, TRANSIENT_SSL_ERROR])
     (by decide)⟩

/-- C4: when the raised error (as the loop sees it) is not rate-limited
and the clock has reached the deadline at classification time, the loop
re-raises exactly that error, unchanged, with no further sleep — with
no hypothesis on membership in the retryable set, so this holds even
for kinds in the configured set. -/
theorem C4_deadline_always_fatal {α : Type} (self : Retry) (op : ℕ → PyOutcome α)
    (opTime : ℕ → ℚ) (fuel k : ℕ) (now current_delay deadline : ℚ) (exc : PyExc)
    (hex : transform_ssl_error (op k) = .raise exc)
    (hcaught : instOf exc.ty .exception = true)
    (hrl : instOf exc.ty .rateLimitReachedError = false)
    (hdl : deadline ≤ now + opTime k) :
    retry_loop_aux self op opTime (fuel + 1) k now current_delay deadline =
      some ⟨.error exc, [], k + 1, now + opTime k⟩ := by
  simp [retry_loop_aux, hex, hcaught, hrl, hdl]

/-- C4 witness: an `OSError` (a member of the default retryable set)
raised after the deadline has passed is re-raised unchanged. -/
theorem C4_deadline_always_fatal_witness :
    transform_ssl_error ((fun _ : ℕ =>
        (PyOutcome.raise ⟨.osError, "connection reset", 0⟩ : PyOutcome ℕ)) 0) =
      .raise ⟨.osError, "connection reset", 0⟩ ∧
    instOf PyType.osError .exception = true ∧
    instOf PyType.osError .rateLimitReachedError = false ∧
    (30 : ℚ) ≤ 0 + 31 ∧
    PyType.osError ∈ defaultRetry.retry_exceptions ∧
    retry_loop_aux defaultRetry (fun _ : ℕ =>
        (PyOutcome.raise ⟨.osError, "connection reset", 0⟩ : PyOutcome ℕ))
        (fun _ => 31) (4 + 1) 0 0 1 30 =
      some ⟨.error ⟨.osError, "connection reset", 0⟩, [], 0 + 1, 0 + 31⟩ :=
  ⟨by norm_num +decide [transform_ssl_error, instOf, PyType.ancestors, strContainsSub,
      listIsInfix, TRANSIENT_SSL_ERROR],
   by decide, by decide, by norm_num,
   by decide,
   C4_deadline_always_fatal defaultRetry _ _ 4 0 0 1 30 ⟨.osError, "connection reset", 0⟩
     (by norm_num +decide [transform_ssl_error, instOf, PyType.ancestors, strContainsSub,
        listIsInfix, TRANSIENT_SSL_ERROR])
     (by decide) (by decide) (by norm_num)⟩

/-- C9: rate-limit classification is an `isinstance` test, so an
instance of a proper subclass of `RateLimitReachedError` takes the
rate-limit branch (sleep `retry_after`, reset the delay, extend the
deadline), even though the same instance fails the exact-type
membership test `should_retry` uses on the default retryable set. -/
theorem C9_rate_limit_isinstance_not_exact :
    (instOf PyType.rateLimitSubclass .rateLimitReachedError = true ∧
     PyType.rateLimitSubclass ∉ RETRY_EXCEPTIONS) ∧
    (∀ e : PyExc, e.ty = .rateLimitSubclass → defaultRetry.should_retry e = false) ∧
    (∀ (α : Type) (self : Retry) (op : ℕ → PyOutcome α) (opTime : ℕ → ℚ)
       (fuel k : ℕ) (now current_delay deadline : ℚ) (e : PyExc),
       e.ty = .rateLimitSubclass →
       transform_ssl_error (op k) = .raise e →
       retry_loop_aux self op opTime (fuel + 1) k now current_delay deadline =
         (retry_loop_aux self op opTime fuel (k + 1)
             (now + opTime k + e.retry_after) self.retry_delay
             (now + opTime k + e.retry_after + (e.retry_after + self.timeout))).map
           (fun out => { out with sleeps := e.retry_after :: out.sleeps })) := by
  refine ⟨⟨by decide, by decide⟩, ?_, ?_⟩
  · intro e hty
    simp [Retry.should_retry, hty, defaultRetry, Retry.init, RETRY_EXCEPTIONS]
  · intro α self op opTime fuel k now current_delay deadline e hty hex
    have hrl : instOf e.ty .rateLimitReachedError = true := by rw [hty]; decide
    have hexc : instOf e.ty .exception = true := instOf_rateLimit_isException _ hrl
    simp [retry_loop_aux, hex, hexc, hrl]

/-- C9 witness: a subclass rate-limit error with `retry_after = 2`. -/
theorem C9_rate_limit_isinstance_not_exact_witness :
    ((⟨.rateLimitSubclass, "rate limited", 2⟩ : PyExc).ty = .rateLimitSubclass ∧
     transform_ssl_error ((fun _ : ℕ =>
         (PyOutcome.raise ⟨.rateLimitSubclass, "rate limited", 2⟩ : PyOutcome ℕ)) 0) =
       .raise ⟨.rateLimitSubclass, "rate limited", 2⟩) ∧
    defaultRetry.should_retry ⟨.rateLimitSubclass, "rate limited", 2⟩ = false ∧
    retry_loop_aux defaultRetry (fun _ : ℕ =>
        (PyOutcome.raise ⟨.rateLimitSubclass, "rate limited", 2⟩ : PyOutcome ℕ))
        (fun _ => 0) (2 + 1) 0 0 1 30 =
      (retry_loop_aux defaultRetry (fun _ : ℕ =>
          (PyOutcome.raise ⟨.rateLimitSubclass, "rate limited", 2⟩ : PyOutcome ℕ))
          (fun _ => 0) 2 (0 + 1)
          (0 + (fun _ : ℕ => (0 : ℚ)) 0 + (⟨.rateLimitSubclass, "rate limited", 2⟩ :
            PyExc).retry_after) defaultRetry.retry_delay
          (0 + (fun _ : ℕ => (0 : ℚ)) 0 + (⟨.rateLimitSubclass, "rate limited", 2⟩ :
            PyExc).retry_after + ((⟨.rateLimitSubclass, "rate limited", 2⟩ :
            PyExc).retry_after + defaultRetry.timeout))).map
        (fun out => { out with sleeps := (⟨.rateLimitSubclass, "rate limited", 2⟩ :
          PyExc).retry_after :: out.sleeps }) :=
  ⟨⟨rfl, by norm_num +decide [transform_ssl_error, instOf, PyType.ancestors, strContainsSub,
      listIsInfix, TRANSIENT_SSL_ERROR]⟩,
   C9_rate_limit_isinstance_not_exact.2.1 ⟨.rateLimitSubclass, "rate limited", 2⟩ rfl,
   C9_rate_limit_isinstance_not_exact.2.2 ℕ defaultRetry _ _ 2 0 0 1 30
     ⟨.rateLimitSubclass, "rate limited", 2⟩ rfl
     (by norm_num +decide [transform_ssl_error, instOf, PyType.ancestors, strContainsSub,
        listIsInfix, TRANSIENT_SSL_ERROR])⟩

/-- Invariant engine: a run of the loop never ends with an error that
`isinstance` classifies as rate-limited — the rate-limit branch always
continues the loop. -/
theorem retry_loop_aux_rl_free {α : Type} (self : Retry) (op : ℕ → PyOutcome α)
    (opTime : ℕ → ℚ) :
    ∀ (fuel k : ℕ) (now current_delay deadline : ℚ) (out : LoopOut α),
      retry_loop_aux self op opTime fuel k now current_delay deadline = some out →
      ∀ e : PyExc, out.result = .error e →
        instOf e.ty .rateLimitReachedError = false := by
  intro fuel
  induction fuel with
  | zero =>
    intro k now current_delay deadline out h
    simp [retry_loop_aux] at h
  | succ fuel ih =>
    intro k now current_delay deadline out h e he
    rw [retry_loop_aux] at h
    cases htr : transform_ssl_error (op k) with
    | ok v =>
      rw [htr] at h
      dsimp only at h
      obtain rfl := Option.some_inj.mp h
      simp at he
    | raise exc =>
      rw [htr] at h
      dsimp only at h
      by_cases hcaught : instOf exc.ty .exception = true
      · rw [if_pos hcaught] at h
        by_cases hrl : instOf exc.ty .rateLimitReachedError = true
        · rw [if_pos hrl] at h
          obtain ⟨out', hout', rfl⟩ := Option.map_eq_some'.mp h
          exact ih (k + 1) _ _ _ out' hout' e he
        · rw [if_neg hrl] at h
          have hrl' : instOf exc.ty .rateLimitReachedError = false :=
            Bool.not_eq_true _ ▸ hrl
          by_cases hdl : deadline ≤ now + opTime k
          · rw [if_pos hdl] at h
            obtain rfl := Option.some_inj.mp h
            have hexe : exc = e := by simpa using he
            rw [← hexe]
            exact hrl'
          · rw [if_neg hdl] at h
            by_cases hsr : self.should_retry exc = true
            · rw [if_pos hsr] at h
              obtain ⟨out', hout', rfl⟩ := Option.map_eq_some'.mp h
              exact ih (k + 1) _ _ _ out' hout' e he
            · rw [if_neg hsr] at h
              obtain rfl := Option.some_inj.mp h
              have hexe : exc = e := by simpa using he
              rw [← hexe]
              exact hrl'
      · rw [if_neg hcaught] at h
        obtain rfl := Option.some_inj.mp h
        have hexe : exc = e := by simpa using he
        rw [← hexe]
        by_cases hq : instOf exc.ty .rateLimitReachedError = true
        · exact absurd (instOf_rateLimit_isException _ hq) hcaught
        · exact Bool.not_eq_true _ ▸ hq

/-- C3: a rate-limit error is never propagated to the caller — whenever
a run of the wrapped operation terminates with an error, that error is
not classified rate-limited; the rate-limit branch always sleeps and
retries, even past the deadline, so a rate-limit signal can only keep
the loop alive, never surface. -/
theorem C3_rate_limit_never_surfaces {α : Type} (self : Retry) (op : ℕ → PyOutcome α)
    (opTime : ℕ → ℚ) (t0 : ℚ) (fuel : ℕ) (out : LoopOut α)
    (h : retry_loop self op opTime t0 fuel = some out) :
    ∀ e : PyExc, out.result = .error e → instOf e.ty .rateLimitReachedError = false :=
  retry_loop_aux_rl_free self op opTime fuel 0 t0 self.retry_delay (t0 + self.timeout)
    out h

/-- C3 witness: a non-retryable error run terminates with an error
that is not rate-limited. -/
theorem C3_rate_limit_never_surfaces_witness :
    retry_loop defaultRetry
        (fun _ : ℕ => (PyOutcome.raise ⟨.otherError, "boom", 0⟩ : PyOutcome ℕ))
        (fun _ => 0) 0 3 =
      some ⟨.error ⟨.otherError, "boom", 0⟩, [], 1, 0⟩ ∧
    ∀ e : PyExc,
      (⟨.error ⟨.otherError, "boom", 0⟩, [], 1, (0 : ℚ)⟩ : LoopOut ℕ).result = .error e →
      instOf e.ty .rateLimitReachedError = false :=
  ⟨by norm_num +decide [retry_loop, retry_loop_aux, transform_ssl_error, instOf,
      PyType.ancestors, Retry.should_retry, strContainsSub, listIsInfix,
      TRANSIENT_SSL_ERROR, defaultRetry, Retry.init, RETRY_EXCEPTIONS, DEFAULT_DELAY,
      DEFAULT_TIMEOUT, DEFAULT_BACKOFF],
   C3_rate_limit_never_surfaces defaultRetry
     (fun _ : ℕ => (PyOutcome.raise ⟨.otherError, "boom", 0⟩ : PyOutcome ℕ))
     (fun _ => 0) 0 3 ⟨.error ⟨.otherError, "boom", 0⟩, [], 1, 0⟩
     (by norm_num +decide [retry_loop, retry_loop_aux, transform_ssl_error, instOf,
        PyType.ancestors, Retry.should_retry, strContainsSub, listIsInfix,
        TRANSIENT_SSL_ERROR, defaultRetry, Retry.init, RETRY_EXCEPTIONS, DEFAULT_DELAY,
        DEFAULT_TIMEOUT, DEFAULT_BACKOFF])⟩

/-- Induction engine for the geometric backoff schedule: if, starting
from loop state `(k, now, d, dl)`, the next `N` invocations (as the
loop sees them, after `transform_ssl_error`) raise caught,
non-rate-limit, retryable errors, each classified strictly before the
deadline, and invocation `k + N` succeeds with `v`, then the loop
returns `v` after invocations `k..k+N` with sleeps
`d, d*backoff, ..., d*backoff^(N-1)`. -/
theorem retry_loop_aux_geom {α : Type} (self : Retry) (op : ℕ → PyOutcome α)
    (opTime : ℕ → ℚ) (v : α) :
    ∀ (N k fuel : ℕ) (now d dl : ℚ), N < fuel →
    (∀ j < N, ∃ ex : PyExc, transform_ssl_error (op (k + j)) = .raise ex ∧
      instOf ex.ty .exception = true ∧ instOf ex.ty .rateLimitReachedError = false ∧
      self.should_retry ex = true) →
    (∀ j < N, now + (∑ i in Finset.range (j + 1), opTime (k + i)) +
      (∑ m in Finset.range j, d * self.backoff ^ m) < dl) →
    transform_ssl_error (op (k + N)) = .ok v →
    ∃ t : ℚ, retry_loop_aux self op opTime fuel k now d dl =
      some ⟨.success v, geomSleeps d self.backoff N, k + N + 1, t⟩ := by
  intro N
  induction N with
  | zero =>
    intro k fuel now d dl hfuel hops htime hsucc
    obtain ⟨fuel, rfl⟩ : ∃ f, fuel = f + 1 := ⟨fuel - 1, by omega⟩
    have hsucc' : transform_ssl_error (op k) = .ok v := hsucc
    refine ⟨now + opTime k, ?_⟩
    rw [retry_loop_aux, hsucc']
    dsimp only
    simp [geomSleeps]
  | succ N ih =>
    intro k fuel now d dl hfuel hops htime hsucc
    obtain ⟨fuel, rfl⟩ : ∃ f, fuel = f + 1 := ⟨fuel - 1, by omega⟩
    obtain ⟨ex, hex0, hexc, hrl, hsr⟩ := hops 0 (Nat.succ_pos N)
    have hex : transform_ssl_error (op k) = .raise ex := hex0
    have hd0 : now + opTime k < dl := by
      have h0 := htime 0 (Nat.succ_pos N)
      simpa using h0
    have hopsN : ∀ j < N, ∃ ex : PyExc,
        transform_ssl_error (op (k + 1 + j)) = .raise ex ∧
        instOf ex.ty .exception = true ∧ instOf ex.ty .rateLimitReachedError = false ∧
        self.should_retry ex = true := by
      intro j hj
      obtain ⟨ex', h1, h2, h3, h4⟩ := hops (j + 1) (by omega)
      refine ⟨ex', ?_, h2, h3, h4⟩
      have hidx : k + 1 + j = k + (j + 1) := by omega
      rw [hidx]
      exact h1
    have htimeN : ∀ j < N, (now + opTime k + d) +
        (∑ i in Finset.range (j + 1), opTime (k + 1 + i)) +
        (∑ m in Finset.range j, d * self.backoff * self.backoff ^ m) < dl := by
      intro j hj
      have h := htime (j + 1) (by omega)
      have hA : (∑ i in Finset.range (j + 1 + 1), opTime (k + i)) =
          (∑ i in Finset.range (j + 1), opTime (k + 1 + i)) + opTime k := by
        rw [Finset.sum_range_succ']
        congr 1
        refine Finset.sum_congr rfl ?_
        intro i _
        congr 1
        omega
      have hB : (∑ m in Finset.range (j + 1), d * self.backoff ^ m) =
          (∑ m in Finset.range j, d * self.backoff * self.backoff ^ m) + d := by
        rw [Finset.sum_range_succ']
        congr 1
        · refine Finset.sum_congr rfl ?_
          intro m _
          ring
        · simp
      rw [hA, hB] at h
      linarith
    have hsuccN : transform_ssl_error (op (k + 1 + N)) = .ok v := by
      have hidx : k + 1 + N = k + (N + 1) := by omega
      rw [hidx]
      exact hsucc
    obtain ⟨t, ht⟩ := ih (k + 1) fuel (now + opTime k + d) (d * self.backoff) dl
      (by omega) hopsN htimeN hsuccN
    refine ⟨t, ?_⟩
    rw [retry_loop_aux, hex]
    dsimp only
    rw [if_pos hexc, if_neg (by simp [hrl]), if_neg (not_le.mpr hd0), if_pos hsr, ht]
    simp only [Option.map_some']
    rw [geomSleeps_succ, show k + 1 + N = k + (N + 1) from by omega]

/-- C1 counterexample: the rate-limit kind is itself a member of the
default configured retryable set, and an operation that fails once with
a rate-limit error carrying `retry_after = 5` and then succeeds is
retried once and returns the success value with total elapsed time
under `timeout` — but its single sleep lasts 5 seconds, not
`initial_delay * backoff_multiplier ^ 0 = 1`. -/
theorem C1_rate_limit_kind_breaks_schedule :
    PyType.rateLimitReachedError ∈ defaultRetry.retry_exceptions ∧
    (5 : ℚ) < defaultRetry.timeout ∧
    retry_loop defaultRetry
        (fun j : ℕ => if j = 0 then
            (PyOutcome.raise ⟨.rateLimitReachedError, "rate limited", 5⟩ : PyOutcome ℕ)
          else .ok 7) (fun _ => 0) 0 10 =
      some ⟨.success 7, [5], 2, 5⟩ ∧
    (5 : ℚ) ≠ defaultRetry.retry_delay * defaultRetry.backoff ^ 0 := by
  refine ⟨by decide, ?_, ?_, ?_⟩
  · norm_num [defaultRetry, Retry.init, DEFAULT_TIMEOUT]
  · norm_num +decide [retry_loop, retry_loop_aux, transform_ssl_error, instOf,
      PyType.ancestors, Retry.should_retry, strContainsSub, listIsInfix,
      TRANSIENT_SSL_ERROR, defaultRetry, Retry.init, RETRY_EXCEPTIONS, DEFAULT_DELAY,
      DEFAULT_TIMEOUT, DEFAULT_BACKOFF]
  · norm_num [defaultRetry, Retry.init, DEFAULT_DELAY, DEFAULT_BACKOFF]

/-- C1 (amended): for every kind `K` in the configured retryable set
that is an ordinary exception and not rate-limited by `isinstance`, and
every `N ≥ 0`, if the operation as the loop sees it (after the SSL
re-tagging) raises an error of precise kind `K` on each of its first
`N` invocations and succeeds on invocation `N + 1`, and at each failure
the cumulative elapsed time is strictly under `timeout`, then the loop
re-invokes the operation exactly `N` times, returns the success value,
and the n-th sleep lasts exactly
`retry_delay * backoff ^ (n - 1)` seconds. -/
theorem C1_geometric_backoff {α : Type} (self : Retry) (op : ℕ → PyOutcome α)
    (opTime : ℕ → ℚ) (t0 : ℚ) (N : ℕ) (v : α) (K : PyType) (fuel : ℕ)
    (hK : K ∈ self.retry_exceptions)
    (hKexc : instOf K .exception = true)
    (hKrl : instOf K .rateLimitReachedError = false)
    (hfuel : N < fuel)
    (hops : ∀ j < N, ∃ ex : PyExc, transform_ssl_error (op j) = .raise ex ∧ ex.ty = K)
    (htime : ∀ j < N, (∑ i in Finset.range (j + 1), opTime i) +
      (∑ m in Finset.range j, self.retry_delay * self.backoff ^ m) < self.timeout)
    (hsucc : transform_ssl_error (op N) = .ok v) :
    ∃ t : ℚ, retry_loop self op opTime t0 fuel =
      some ⟨.success v, geomSleeps self.retry_delay self.backoff N, N + 1, t⟩ := by
  have hopsA : ∀ j < N, ∃ ex : PyExc, transform_ssl_error (op (0 + j)) = .raise ex ∧
      instOf ex.ty .exception = true ∧ instOf ex.ty .rateLimitReachedError = false ∧
      self.should_retry ex = true := by
    intro j hj
    obtain ⟨ex, h1, hty⟩ := hops j hj
    refine ⟨ex, ?_, ?_, ?_, ?_⟩
    · rw [Nat.zero_add]
      exact h1
    · rw [hty]
      exact hKexc
    · rw [hty]
      exact hKrl
    · rw [Retry.should_retry, hty]
      simpa using hK
  have htimeA : ∀ j < N, t0 + (∑ i in Finset.range (j + 1), opTime (0 + i)) +
      (∑ m in Finset.range j, self.retry_delay * self.backoff ^ m) <
      t0 + self.timeout := by
    intro j hj
    have h := htime j hj
    have hz : (∑ i in Finset.range (j + 1), opTime (0 + i)) =
        ∑ i in Finset.range (j + 1), opTime i := by
      refine Finset.sum_congr rfl ?_
      intro i _
      congr 1
      omega
    rw [hz]
    linarith
  have hsuccA : transform_ssl_error (op (0 + N)) = .ok v := by
    rw [Nat.zero_add]
    exact hsucc
  obtain ⟨t, ht⟩ := retry_loop_aux_geom self op opTime v N 0 fuel t0 self.retry_delay
    (t0 + self.timeout) hfuel hopsA htimeA hsuccA
  refine ⟨t, ?_⟩
  rw [retry_loop]
  simpa using ht

/-- The configuration used in the C1 witness: only `OSError` is
retryable, delay 1 second, timeout 30 seconds, backoff multiplier 2. -/
def backoffRetry : Retry := Retry.init (some [.osError]) (some 1) (some 30) (some 2)

/-- The operation used in the C1 witness: two `OSError` failures, then
success with value 42. -/
def opTwoResets : ℕ → PyOutcome ℕ := fun j =>
  if j < 2 then .raise ⟨.osError, "connection reset", 0⟩ else .ok 42

/-- C1 witness: with delay 1 and backoff 2, two retryable failures then
success produce exactly the sleeps `[1, 2]` and three invocations. -/
theorem C1_geometric_backoff_witness :
    PyType.osError ∈ backoffRetry.retry_exceptions ∧
    instOf PyType.osError .exception = true ∧
    instOf PyType.osError .rateLimitReachedError = false ∧
    (∀ j < 2, ∃ ex : PyExc, transform_ssl_error (opTwoResets j) = .raise ex ∧
      ex.ty = .osError) ∧
    (∀ j < 2, (∑ i in Finset.range (j + 1), (fun _ : ℕ => (0 : ℚ)) i) +
      (∑ m in Finset.range j, backoffRetry.retry_delay * backoffRetry.backoff ^ m) <
      backoffRetry.timeout) ∧
    transform_ssl_error (opTwoResets 2) = .ok 42 ∧
    ∃ t : ℚ, retry_loop backoffRetry opTwoResets (fun _ => 0) 0 5 =
      some ⟨.success 42, geomSleeps backoffRetry.retry_delay backoffRetry.backoff 2,
        2 + 1, t⟩ := by
  have hops : ∀ j < 2, ∃ ex : PyExc, transform_ssl_error (opTwoResets j) = .raise ex ∧
      ex.ty = .osError := by
    intro j hj
    interval_cases j <;>
      exact ⟨⟨.osError, "connection reset", 0⟩,
        by norm_num +decide [transform_ssl_error, opTwoResets, instOf, PyType.ancestors,
          strContainsSub, listIsInfix, TRANSIENT_SSL_ERROR], rfl⟩
  have htime : ∀ j < 2, (∑ i in Finset.range (j + 1), (fun _ : ℕ => (0 : ℚ)) i) +
      (∑ m in Finset.range j, backoffRetry.retry_delay * backoffRetry.backoff ^ m) <
      backoffRetry.timeout := by
    intro j hj
    interval_cases j <;>
      norm_num [Finset.sum_range_succ, backoffRetry, Retry.init]
  have hsucc : transform_ssl_error (opTwoResets 2) = .ok 42 := by
    norm_num +decide [transform_ssl_error, opTwoResets]
  exact ⟨by decide, by decide, by decide, hops, htime, hsucc,
    C1_geometric_backoff backoffRetry opTwoResets (fun _ => 0) 0 2 42 .osError 5
      (by decide) (by decide) (by decide) (by norm_num) hops htime hsucc⟩

/-- C5: membership in the retryable set is decided on the precise
runtime kind: `should_retry` holds exactly when the precise kind is a
member of the configured set; a caught, non-rate-limited error whose
precise kind is not a member (even an instance of a subclass of a
configured kind) is re-raised unchanged on the first attempt with zero
sleeps, and one whose precise kind is a member (with the deadline not
yet reached) is retried after one sleep. -/
theorem C5_exact_type_membership :
    (∀ (self : Retry) (e : PyExc),
       self.should_retry e = true ↔ e.ty ∈ self.retry_exceptions) ∧
    (∀ (α : Type) (self : Retry) (op : ℕ → PyOutcome α) (opTime : ℕ → ℚ) (t0 : ℚ)
       (e : PyExc) (fuel : ℕ),
       transform_ssl_error (op 0) = .raise e →
       instOf e.ty .exception = true →
       instOf e.ty .rateLimitReachedError = false →
       e.ty ∉ self.retry_exceptions →
       retry_loop self op opTime t0 (fuel + 1) =
         some ⟨.error e, [], 1, t0 + opTime 0⟩) ∧
    (∀ (α : Type) (self : Retry) (op : ℕ → PyOutcome α) (opTime : ℕ → ℚ)
       (fuel k : ℕ) (now current_delay deadline : ℚ) (e : PyExc),
       transform_ssl_error (op k) = .raise e →
       instOf e.ty .exception = true →
       instOf e.ty .rateLimitReachedError = false →
       now + opTime k < deadline →
       e.ty ∈ self.retry_exceptions →
       retry_loop_aux self op opTime (fuel + 1) k now current_delay deadline =
         (retry_loop_aux self op opTime fuel (k + 1) (now + opTime k + current_delay)
             (current_delay * self.backoff) deadline).map
           (fun out => { out with sleeps := current_delay :: out.sleeps })) := by
  refine ⟨?_, ?_, ?_⟩
  · intro self e
    simp [Retry.should_retry]
  · intro α self op opTime t0 e fuel hex hexc hrl hmem
    have hsr : ¬ self.should_retry e = true := by
      simp [Retry.should_retry]
      exact hmem
    rw [retry_loop, retry_loop_aux, hex]
    dsimp only
    rw [if_pos hexc, if_neg (by simp [hrl])]
    by_cases hdl : t0 + self.timeout ≤ t0 + opTime 0
    · rw [if_pos hdl]
    · rw [if_neg hdl, if_neg hsr]
  · intro α self op opTime fuel k now current_delay deadline e hex hexc hrl hdl hmem
    have hsr : self.should_retry e = true := by
      simpa [Retry.should_retry] using hmem
    rw [retry_loop_aux, hex]
    dsimp only
    rw [if_pos hexc, if_neg (by simp [hrl]), if_neg (not_le.mpr hdl), if_pos hsr]

/-- C5 witness: with only `OSError` configured, a `socket.gaierror`
(whose runtime class is a subclass of `OSError`) is not retried: it is
re-raised on the first attempt with zero sleeps. -/
theorem C5_exact_type_membership_witness :
    instOf PyType.gaierror .osError = true ∧
    PyType.gaierror ∉ (Retry.init (some [.osError]) none none none).retry_exceptions ∧
    transform_ssl_error ((fun _ : ℕ =>
        (PyOutcome.raise ⟨.gaierror, "dns failure", 0⟩ : PyOutcome ℕ)) 0) =
      .raise ⟨.gaierror, "dns failure", 0⟩ ∧
    instOf PyType.gaierror .exception = true ∧
    instOf PyType.gaierror .rateLimitReachedError = false ∧
    retry_loop (Retry.init (some [.osError]) none none none)
        (fun _ : ℕ => (PyOutcome.raise ⟨.gaierror, "dns failure", 0⟩ : PyOutcome ℕ))
        (fun _ => 0) 0 (4 + 1) =
      some ⟨.error ⟨.gaierror, "dns failure", 0⟩, [], 1, 0 + (fun _ : ℕ => (0 : ℚ)) 0⟩ :=
  ⟨by decide, by decide,
   by norm_num +decide [transform_ssl_error, instOf, PyType.ancestors, strContainsSub,
      listIsInfix, TRANSIENT_SSL_ERROR],
   by decide, by decide,
   C5_exact_type_membership.2.1 ℕ (Retry.init (some [.osError]) none none none)
     (fun _ : ℕ => (PyOutcome.raise ⟨.gaierror, "dns failure", 0⟩ : PyOutcome ℕ))
     (fun _ => 0) 0 ⟨.gaierror, "dns failure", 0⟩ 4
     (by norm_num +decide [transform_ssl_error, instOf, PyType.ancestors, strContainsSub,
        listIsInfix, TRANSIENT_SSL_ERROR])
     (by decide) (by decide) (by decide)⟩

/-- C6 counterexample: a directly raised `TransientSSLError` is an
SSL-kind error (an instance of `ssl.SSLError`) whose message does not
contain the marker, yet under the default configuration it is retried
(one sleep, then the success value is returned), not propagated as
fatal: its precise kind sits in the default retryable set. -/
theorem C6_transient_kind_without_marker_retried :
    instOf PyType.transientSSLError .sslError = true ∧
    strContainsSub "handshake failure" TRANSIENT_SSL_ERROR = false ∧
    defaultRetry.should_retry ⟨.transientSSLError, "handshake failure", 0⟩ = true ∧
    retry_loop defaultRetry
        (fun j : ℕ => if j = 0 then
            (PyOutcome.raise ⟨.transientSSLError, "handshake failure", 0⟩ : PyOutcome ℕ)
          else .ok 9) (fun _ => 0) 0 10 =
      some ⟨.success 9, [1], 2, 1⟩ := by
  refine ⟨by decide, by decide, by decide, ?_⟩
  norm_num +decide [retry_loop, retry_loop_aux, transform_ssl_error, instOf,
    PyType.ancestors, Retry.should_retry, strContainsSub, listIsInfix,
    TRANSIENT_SSL_ERROR, defaultRetry, Retry.init, RETRY_EXCEPTIONS, DEFAULT_DELAY,
    DEFAULT_TIMEOUT, DEFAULT_BACKOFF]

/-- C6 (amended): an SSL-kind error (by `isinstance`) whose message
contains the marker is re-tagged as `TransientSSLError` and is
retryable under the default configuration; an error of precise kind
`ssl.SSLError` (so not the transient-TLS class itself) whose message
does not contain the marker passes through the transform unchanged, is
not retryable under the default configuration, and is propagated to
the caller on the first attempt with zero sleeps. -/
theorem C6_ssl_marker_classification :
    (∀ (α : Type) (e : PyExc), instOf e.ty .sslError = true →
       strContainsSub e.msg TRANSIENT_SSL_ERROR = true →
       @transform_ssl_error α (.raise e) =
         .raise { e with ty := .transientSSLError } ∧
       defaultRetry.should_retry { e with ty := .transientSSLError } = true) ∧
    (∀ (α : Type) (op : ℕ → PyOutcome α) (opTime : ℕ → ℚ) (t0 : ℚ) (e : PyExc)
       (fuel : ℕ),
       op 0 = .raise e →
       e.ty = .sslError →
       strContainsSub e.msg TRANSIENT_SSL_ERROR = false →
       transform_ssl_error (op 0) = .raise e ∧
       defaultRetry.should_retry e = false ∧
       retry_loop defaultRetry op opTime t0 (fuel + 1) =
         some ⟨.error e, [], 1, t0 + opTime 0⟩) := by
  constructor
  · intro α e hssl hmark
    constructor
    · simp [transform_ssl_error, hssl, hmark]
    · simp [Retry.should_retry, defaultRetry, Retry.init, RETRY_EXCEPTIONS]
  · intro α op opTime t0 e fuel hop hty hmark
    have htr : transform_ssl_error (op 0) = .raise e := by
      rw [hop]
      simp [transform_ssl_error, hty, hmark]
    have hsr : ¬ defaultRetry.should_retry e = true := by
      simp [Retry.should_retry, hty, defaultRetry, Retry.init, RETRY_EXCEPTIONS]
    refine ⟨htr, Bool.not_eq_true _ ▸ hsr, ?_⟩
    rw [retry_loop, retry_loop_aux, htr]
    dsimp only
    rw [if_pos (by rw [hty]; decide), if_neg (by rw [hty]; decide)]
    by_cases hdl : t0 + defaultRetry.timeout ≤ t0 + opTime 0
    · rw [if_pos hdl]
    · rw [if_neg hdl, if_neg hsr]

/-- C6 witness: a generic `ssl.SSLError` with the marker is re-tagged
and retryable; one with another message is fatal at once. -/
theorem C6_ssl_marker_classification_witness :
    (instOf PyType.sslError .sslError = true ∧
     strContainsSub "x The read operation timed out y" TRANSIENT_SSL_ERROR = true ∧
     @transform_ssl_error ℕ (.raise ⟨.sslError, "x The read operation timed out y", 0⟩) =
       .raise ⟨.transientSSLError, "x The read operation timed out y", 0⟩ ∧
     defaultRetry.should_retry
       ⟨.transientSSLError, "x The read operation timed out y", 0⟩ = true) ∧
    ((fun _ : ℕ => (PyOutcome.raise ⟨.sslError, "handshake failure", 0⟩ :
        PyOutcome ℕ)) 0 = .raise ⟨.sslError, "handshake failure", 0⟩ ∧
     strContainsSub "handshake failure" TRANSIENT_SSL_ERROR = false ∧
     defaultRetry.should_retry ⟨.sslError, "handshake failure", 0⟩ = false ∧
     retry_loop defaultRetry
        (fun _ : ℕ => (PyOutcome.raise ⟨.sslError, "handshake failure", 0⟩ :
          PyOutcome ℕ)) (fun _ => 0) 0 (7 + 1) =
       some ⟨.error ⟨.sslError, "handshake failure", 0⟩, [], 1,
         0 + (fun _ : ℕ => (0 : ℚ)) 0⟩) := by
  have h1 := C6_ssl_marker_classification.1 ℕ
    ⟨.sslError, "x The read operation timed out y", 0⟩ (by decide) (by decide)
  have h2 := C6_ssl_marker_classification.2 ℕ
    (fun _ : ℕ => (PyOutcome.raise ⟨.sslError, "handshake failure", 0⟩ : PyOutcome ℕ))
    (fun _ => 0) 0 ⟨.sslError, "handshake failure", 0⟩ 7 rfl rfl (by decide)
  exact ⟨⟨by decide, by decide, h1.1, h1.2⟩, ⟨rfl, by decide, h2.2.1, h2.2.2⟩⟩

/-- C8: every omitted (`None`) configuration field takes its documented
default; the stored timeout is `max(timeout, 0)`; and with a
non-positive timeout (clamped to 0) an operation raising any error not
classified rate-limited runs only its first attempt before the error
propagates, with zero sleeps. -/
theorem C8_constructor_defaults :
    Retry.init none none none none =
      { retry_exceptions := RETRY_EXCEPTIONS, retry_delay := 1, timeout := 30,
        backoff := 1 } ∧
    (∀ (re : Option (List PyType)) (rd t b : Option ℚ),
       (Retry.init re rd t b).timeout = max (t.getD DEFAULT_TIMEOUT) 0) ∧
    (∀ (α : Type) (re : Option (List PyType)) (rd b : Option ℚ) (t : ℚ), t ≤ 0 →
       ∀ (op : ℕ → PyOutcome α) (opTime : ℕ → ℚ) (t0 : ℚ) (e : PyExc) (fuel : ℕ),
         transform_ssl_error (op 0) = .raise e →
         instOf e.ty .rateLimitReachedError = false →
         0 ≤ opTime 0 →
         retry_loop (Retry.init re rd (some t) b) op opTime t0 (fuel + 1) =
           some ⟨.error e, [], 1, t0 + opTime 0⟩) := by
  refine ⟨?_, fun re rd t b => rfl, ?_⟩
  · norm_num [Retry.init, DEFAULT_TIMEOUT, DEFAULT_DELAY, DEFAULT_BACKOFF]
  · intro α re rd b t ht op opTime t0 e fuel hex hrl h0
    have hto : (Retry.init re rd (some t) b).timeout = 0 := by
      simp [Retry.init]
      exact ht
    have hdl : t0 + (Retry.init re rd (some t) b).timeout ≤ t0 + opTime 0 := by
      rw [hto]
      linarith
    by_cases hexc : instOf e.ty .exception = true
    · rw [retry_loop, retry_loop_aux, hex]
      dsimp only
      rw [if_pos hexc, if_neg (by simp [hrl]), if_pos hdl]
    · rw [retry_loop, retry_loop_aux, hex]
      dsimp only
      rw [if_neg hexc]

/-- C8 witness: a negative timeout is clamped to 0 and a non-retryable
first failure propagates immediately; the defaults are as documented. -/
theorem C8_constructor_defaults_witness :
    (Retry.init none none (some (-3)) none).timeout =
      max ((some (-3) : Option ℚ).getD DEFAULT_TIMEOUT) 0 ∧
    (-3 : ℚ) ≤ 0 ∧
    transform_ssl_error ((fun _ : ℕ =>
        (PyOutcome.raise ⟨.osError, "connection reset", 0⟩ : PyOutcome ℕ)) 0) =
      .raise ⟨.osError, "connection reset", 0⟩ ∧
    instOf PyType.osError .rateLimitReachedError = false ∧
    (0 : ℚ) ≤ (fun _ : ℕ => (0 : ℚ)) 0 ∧
    retry_loop (Retry.init none none (some (-3)) none)
        (fun _ : ℕ => (PyOutcome.raise ⟨.osError, "connection reset", 0⟩ : PyOutcome ℕ))
        (fun _ => 0) 0 (5 + 1) =
      some ⟨.error ⟨.osError, "connection reset", 0⟩, [], 1,
        0 + (fun _ : ℕ => (0 : ℚ)) 0⟩ :=
  ⟨C8_constructor_defaults.2.1 none none (some (-3)) none, by norm_num,
   by norm_num +decide [transform_ssl_error, instOf, PyType.ancestors, strContainsSub,
      listIsInfix, TRANSIENT_SSL_ERROR],
   by decide, by norm_num,
   C8_constructor_defaults.2.2 ℕ none none none (-3) (by norm_num)
     (fun _ : ℕ => (PyOutcome.raise ⟨.osError, "connection reset", 0⟩ : PyOutcome ℕ))
     (fun _ => 0) 0 ⟨.osError, "connection reset", 0⟩ 5
     (by norm_num +decide [transform_ssl_error, instOf, PyType.ancestors, strContainsSub,
        listIsInfix, TRANSIENT_SSL_ERROR])
     (by decide) (by norm_num)⟩
